import Mathlib

/-!
Shallow embedding of the CUBRID transaction-server connection layer
(`tran_server.cpp`, `active_tran_server.cpp`, `log_global.c`).

Machine integers that matter here are error codes, ports and LSAs; all are
modelled as `Int` (none of the claims exercise overflow: ports are bounded by
65535, LSAs are abstract ordered values).  A `log_lsa` is modelled as an `Int`
with `NULL_LSA` below every valid LSA, matching the lexicographic order on
`(pageid, offset)` pairs used by the source (claims only use order/equality).

C++ `assert` statements are modelled as guards: an operation whose asserted
precondition fails leaves the state unchanged (the debug build halts there, so
no state change is ever observed; every call site in the repository respects
the asserted preconditions).
-/

namespace CubridTS

/-- Result code `NO_ERROR`. -/
def NO_ERROR : Int := 0

/-- Error code `ER_HOST_PORT_PARAMETER`: malformed `host:port` config token. -/
def ER_HOST_PORT_PARAMETER : Int := -677

/-- Error code `ER_NET_PAGESERVER_CONNECTION`: TCP or handshake failure on one attempt. -/
def ER_NET_PAGESERVER_CONNECTION : Int := -678

/-- Error code `ER_CONN_NO_PAGE_SERVER_AVAILABLE`: no handler currently connected. -/
def ER_CONN_NO_PAGE_SERVER_AVAILABLE : Int := -679

/-- Error code `ER_CONN_PAGE_SERVER_CANNOT_BE_REACHED`: per-request failure. -/
def ER_CONN_PAGE_SERVER_CANNOT_BE_REACHED : Int := -680

/-- Error code `ER_EMPTY_PAGE_SERVER_HOSTS_CONFIG`. -/
def ER_EMPTY_PAGE_SERVER_HOSTS_CONFIG : Int := -681

/-- Error code `ER_NO_PAGE_SERVER_CONNECTION`. -/
def ER_NO_PAGE_SERVER_CONNECTION : Int := -682

/-- The `NULL_LSA` sentinel: compares below every valid LSA. -/
def NULL_LSA : Int := -1

/-- The `tran_server::connection_handler` state enum (enum class `state`). -/
inductive conn_state where
  | IDLE
  | CONNECTING
  | CONNECTED
  | DISCONNECTING
deriving DecidableEq, Repr

/-- Requests pushed on the wire that the claims observe. -/
inductive req where
  | SEND_START_CATCH_UP
  | SEND_DISCONNECT_MSG
deriving DecidableEq, Repr

/--
The handler `active_tran_server::connection_handler` (which extends
`tran_server::connection_handler`).  `m_conn` is abstracted to presence;
`m_disconn_future` is split into `m_disconn_pending` (spawned teardown task
that has not yet executed; `some b` records the captured `with_disc_msg`) and
`m_disconn_future_valid` (`m_disconn_future.valid()`).  `spawned_futures` is a
ghost counter of `std::async` teardown spawns.  `env_send_recv_fails` models
whether the external channel's `send_recv` round-trip fails for this handler.
-/
structure connection_handler where
  m_state : conn_state
  m_conn : Bool
  m_prior_sender_sink : Bool
  m_saved_lsa : Int
  m_disconn_pending : Option Bool
  m_disconn_future_valid : Bool
  spawned_futures : Nat
  env_send_recv_fails : Bool
deriving DecidableEq, Repr

instance : Inhabited connection_handler :=
  ⟨⟨conn_state.IDLE, false, false, NULL_LSA, none, false, 0, false⟩⟩

/-- A freshly constructed handler: `IDLE`, no conn, `m_saved_lsa = NULL_LSA`
(the `active_tran_server::connection_handler` constructor). -/
def init_handler : connection_handler :=
  ⟨conn_state.IDLE, false, false, NULL_LSA, none, false, 0, false⟩

/-- Predicate `tran_server::connection_handler::is_connected`. -/
def is_connected (h : connection_handler) : Bool :=
  decide (h.m_state = conn_state.CONNECTED)

/-- Predicate `tran_server::connection_handler::is_idle`. -/
def is_idle (h : connection_handler) : Bool :=
  decide (h.m_state = conn_state.IDLE)

/-- Accessor `active_tran_server::connection_handler::get_saved_lsa`. -/
def get_saved_lsa (h : connection_handler) : Int :=
  h.m_saved_lsa

/--
Function `active_tran_server::compute_consensus_lsa`: walk the handler vector
collecting `get_saved_lsa()` of the connected ones while counting them
(`cur_node_cnt`); if the count is below the quorum `total/2 + 1` the result is
`NULL_LSA`, otherwise the collected list is sorted ascending (`std::sort`) and
indexed at `cur_node_cnt - quorum`.
-/
def compute_consensus_lsa (v : List connection_handler) : Int :=
  let total_node_cnt := v.length
  let quorum := total_node_cnt / 2 + 1
  let collected := v.foldl
    (fun (acc : List Int × Nat) c =>
      if is_connected c then (acc.1 ++ [get_saved_lsa c], acc.2 + 1) else acc)
    ([], 0)
  let collected_saved_lsa := collected.1
  let cur_node_cnt := collected.2
  if cur_node_cnt < quorum then NULL_LSA
  else (List.insertionSort (fun a b : Int => a ≤ b) collected_saved_lsa).getD
    (cur_node_cnt - quorum) NULL_LSA

/-- The multiset `S` of the spec: saved LSAs of the connected handlers, in
vector order. -/
def saved_of_connected (v : List connection_handler) : List Int :=
  (v.filter is_connected).map get_saved_lsa

/-- Outcome of the external channel handshake attempted by `connect()`:
whether the TCP connect, `send_int` and `recv_int` succeed, and the integer
echoed back by the page server. -/
structure net_env where
  tcp_ok : Bool
  send_ok : Bool
  recv_ok : Bool
  echoed : Int
deriving DecidableEq, Repr

/--
Function `tran_server::connection_handler::connect` with the ATS variant of the
virtual `transition_to_connected`.  Under `m_state_mtx`: asserts
`m_state == IDLE` (modelled as a guard), sets `CONNECTING`, performs the
channel handshake (`connect`, `send_int(conn_type)`, `recv_int` and the echo
comparison); each failure runs `ps_conn_error_lambda` (state back to `IDLE`,
return `ER_NET_PAGESERVER_CONNECTION`).  On success `set_connection`
installs the conn, then `active_tran_server::connection_handler::
transition_to_connected` registers the prior-sender sink and pushes
`SEND_START_CATCH_UP`, leaving `m_state` at `CONNECTING`.
Returns `(code, handler, pushed requests, writes to m_state)`.
-/
def connect (env : net_env) (conn_type : Int) (h : connection_handler) :
    Int × connection_handler × List req × List conn_state :=
  if h.m_state = conn_state.IDLE then
    let h1 := { h with m_state := conn_state.CONNECTING }
    if env.tcp_ok = false then
      (ER_NET_PAGESERVER_CONNECTION, { h1 with m_state := conn_state.IDLE },
        [], [conn_state.CONNECTING, conn_state.IDLE])
    else if env.send_ok = false then
      (ER_NET_PAGESERVER_CONNECTION, { h1 with m_state := conn_state.IDLE },
        [], [conn_state.CONNECTING, conn_state.IDLE])
    else if env.recv_ok = false then
      (ER_NET_PAGESERVER_CONNECTION, { h1 with m_state := conn_state.IDLE },
        [], [conn_state.CONNECTING, conn_state.IDLE])
    else if env.echoed ≠ conn_type then
      (ER_NET_PAGESERVER_CONNECTION, { h1 with m_state := conn_state.IDLE },
        [], [conn_state.CONNECTING, conn_state.IDLE])
    else
      let h2 := { h1 with m_conn := true }
      let h3 := { h2 with m_prior_sender_sink := true }
      (NO_ERROR, h3, [req.SEND_START_CATCH_UP], [conn_state.CONNECTING])
  else
    (NO_ERROR, h, [], [])

/--
Body of the `std::async` lambda of `disconnect_async` (executed off the hot
path): `on_disconnecting()` removes the ATS prior-sender sink,
`stop_incoming_communication_thread`, push of the final `SEND_DISCONNECT_MSG`
when `with_disc_msg` was captured, drop of `m_conn`, `m_state := IDLE`.
-/
def teardown (with_disc_msg : Bool) (h : connection_handler) :
    connection_handler × List req :=
  ({ h with m_prior_sender_sink := false, m_conn := false,
            m_state := conn_state.IDLE, m_disconn_pending := none },
   if with_disc_msg then [req.SEND_DISCONNECT_MSG] else [])

/--
Function `tran_server::connection_handler::disconnect_async`: under `m_state_mtx`,
return immediately when `m_state` is `IDLE` or `DISCONNECTING`; otherwise
(asserted `CONNECTING` or `CONNECTED`) set `DISCONNECTING` and spawn the
teardown future.  Returns `(handler, writes to m_state)`.
-/
def disconnect_async (with_disc_msg : Bool) (h : connection_handler) :
    connection_handler × List conn_state :=
  if h.m_state = conn_state.IDLE ∨ h.m_state = conn_state.DISCONNECTING then
    (h, [])
  else
    ({ h with m_state := conn_state.DISCONNECTING,
              m_disconn_pending := some with_disc_msg,
              m_disconn_future_valid := true,
              spawned_futures := h.spawned_futures + 1 },
     [conn_state.DISCONNECTING])

/--
Asynchronous execution of a spawned teardown task (the async worker running
the lambda of `disconnect_async`).  Guarded by the pending task existing and
its `assert (m_state == state::DISCONNECTING)`.
-/
def finish_disconnect (h : connection_handler) :
    connection_handler × List req × List conn_state :=
  match h.m_disconn_pending with
  | some b =>
    if h.m_state = conn_state.DISCONNECTING then
      let t := teardown b h
      (t.1, t.2, [conn_state.IDLE])
    else (h, [], [])
  | none => (h, [], [])

/--
Function `tran_server::connection_handler::wait_async_disconnection`: if
`m_disconn_future.valid()`, `get()` it — which first runs the teardown task if
it has not executed yet — after which the future is consumed; then asserts
`m_state == IDLE`.
-/
def wait_async_disconnection (h : connection_handler) :
    connection_handler × List req × List conn_state :=
  if h.m_disconn_future_valid then
    match h.m_disconn_pending with
    | some b =>
      if h.m_state = conn_state.DISCONNECTING then
        let t := teardown b h
        ({ t.1 with m_disconn_future_valid := false }, t.2, [conn_state.IDLE])
      else (h, [], [])
    | none => ({ h with m_disconn_future_valid := false }, [], [])
  else (h, [], [])

/--
Function `active_tran_server::connection_handler::receive_catchup_complete`: asserts
`m_state == CONNECTING` (guard), then sets `m_state = CONNECTED`.
-/
def receive_catchup_complete (h : connection_handler) :
    connection_handler × List conn_state :=
  if h.m_state = conn_state.CONNECTING then
    ({ h with m_state := conn_state.CONNECTED }, [conn_state.CONNECTED])
  else (h, [])

/--
Function `active_tran_server::connection_handler::receive_saved_lsa`: asserts
`saved_lsa >= get_saved_lsa()`; stores the received value and wakes the
flush waiters (`wakeup_ps_flush_waiters`) only when it is strictly greater.
Returns `(handler, woke waiters, assert held)`.
-/
def receive_saved_lsa (lsa : Int) (h : connection_handler) :
    connection_handler × Bool × Bool :=
  let assert_ok := decide (lsa ≥ get_saved_lsa h)
  if lsa > get_saved_lsa h then
    ({ h with m_saved_lsa := lsa }, true, assert_ok)
  else (h, false, assert_ok)

/-- Handler-level `tran_server::connection_handler::push_request`: `CONNECTED` required,
then `m_conn->push` (which cannot fail) — result code only. -/
def handler_push_request (h : connection_handler) : Int :=
  if h.m_state = conn_state.CONNECTED then NO_ERROR
  else ER_CONN_PAGE_SERVER_CANNOT_BE_REACHED

/-- Handler-level `tran_server::connection_handler::send_receive`: `CONNECTED` required,
then the blocking `m_conn->send_recv` whose channel error maps to
`ER_CONN_PAGE_SERVER_CANNOT_BE_REACHED`. -/
def handler_send_receive (h : connection_handler) : Int :=
  if h.m_state = conn_state.CONNECTED then
    if h.env_send_recv_fails then ER_CONN_PAGE_SERVER_CANNOT_BE_REACHED
    else NO_ERROR
  else ER_CONN_PAGE_SERVER_CANNOT_BE_REACHED

/-- The operations that can act on one connection handler (the asynchronous
teardown execution and the inbound PS→TS messages are interleaved as explicit
events). -/
inductive hop where
  | connect (env : net_env)
  | disconnect_async (with_disc_msg : Bool)
  | finish_disconnect
  | wait_async_disconnection
  | catchup_complete
  | saved_lsa (lsa : Int)
deriving DecidableEq, Repr

/-- One step of a handler; returns the new handler and the sequence of writes
to `m_state` performed during the step (the externally observable state
changes). -/
def hstep (conn_type : Int) (op : hop) (h : connection_handler) :
    connection_handler × List conn_state :=
  match op with
  | hop.connect env =>
    let r := connect env conn_type h
    (r.2.1, r.2.2.2)
  | hop.disconnect_async b => disconnect_async b h
  | hop.finish_disconnect =>
    let r := finish_disconnect h
    (r.1, r.2.2)
  | hop.wait_async_disconnection =>
    let r := wait_async_disconnection h
    (r.1, r.2.2)
  | hop.catchup_complete => receive_catchup_complete h
  | hop.saved_lsa l => ((receive_saved_lsa l h).1, [])

/-- Run a sequence of handler operations, concatenating the `m_state`
writes. -/
def hrun (conn_type : Int) : List hop → connection_handler →
    connection_handler × List conn_state
  | [], h => (h, [])
  | op :: ops, h =>
    let r := hstep conn_type op h
    let r' := hrun conn_type ops r.1
    (r'.1, r.2 ++ r'.2)

/-- The transition table of spec §3. -/
def permitted : conn_state → conn_state → Bool
  | conn_state.IDLE, conn_state.CONNECTING => true
  | conn_state.CONNECTING, conn_state.IDLE => true
  | conn_state.CONNECTING, conn_state.CONNECTED => true
  | conn_state.CONNECTING, conn_state.DISCONNECTING => true
  | conn_state.CONNECTED, conn_state.DISCONNECTING => true
  | conn_state.DISCONNECTING, conn_state.IDLE => true
  | _, _ => false

/-- An observed state change is either a stutter or a permitted transition. -/
def ok_step (s s' : conn_state) : Prop :=
  s' = s ∨ permitted s s' = true

instance (s s' : conn_state) : Decidable (ok_step s s') :=
  inferInstanceAs (Decidable (s' = s ∨ permitted s s' = true))

/-- The full observed `m_state` sequence of a run started on a fresh
handler. -/
def observed_states (conn_type : Int) (ops : List hop) : List conn_state :=
  init_handler.m_state :: (hrun conn_type ops init_handler).2

/-- The `tran_server` state: the handler vector (append-only after boot, immutable
during the claims' scenarios) and the main-connection pointer, modelled as an
index into the vector. -/
structure tsrv where
  m_page_server_conn_vec : List connection_handler
  m_main_conn : Option Nat
deriving DecidableEq, Repr

/-- First-match index search, as `std::find_if` over the handler vector. -/
def find_if_idx (p : α → Bool) : List α → Option Nat
  | [] => none
  | a :: l => if p a then some 0 else (find_if_idx p l).map (fun n => n + 1)

/--
Function `tran_server::reset_main_connection`: under `m_main_conn_mtx` exclusively,
find the first handler (registration order) with `is_connected()`; if none,
report `ER_CONN_NO_PAGE_SERVER_AVAILABLE` (note: `m_main_conn` is NOT
modified on this path); otherwise point `m_main_conn` at the candidate.
-/
def reset_main_connection (ts : tsrv) : Int × tsrv :=
  match find_if_idx is_connected ts.m_page_server_conn_vec with
  | none => (ER_CONN_NO_PAGE_SERVER_AVAILABLE, ts)
  | some i => (NO_ERROR, { ts with m_main_conn := some i })

/-- Observable events of the `tran_server` request paths: a call into the
handler at index `i` of the vector, or a call to `reset_main_connection`. -/
inductive ts_event where
  | handler_call (i : Nat)
  | reset_call
deriving DecidableEq, Repr

/-- The handler `m_main_conn` points at (dereference of the stored main
connection pointer). -/
def main_handler (ts : tsrv) : connection_handler :=
  ts.m_page_server_conn_vec.getD (ts.m_main_conn.getD 0) default

/--
Loop body of `tran_server::push_request` (fuelled; the fuel is never
exhausted because the loop re-enters only after a successful
`reset_main_connection`, after which the main connection is connected):
call `m_main_conn->push_request`; on failure with `!is_connected()` run
`reset_main_connection()` and stop on `ER_CONN_NO_PAGE_SERVER_AVAILABLE`
(push returns `void`: nothing is surfaced), otherwise retry; on success or
failure-while-connected, stop.
-/
def push_request_go : Nat → tsrv → List ts_event → tsrv × List ts_event
  | 0, ts, evs => (ts, evs)
  | Nat.succ fuel, ts, evs =>
    let i := ts.m_main_conn.getD 0
    let err := handler_push_request (main_handler ts)
    if err ≠ NO_ERROR ∧ is_connected (main_handler ts) = false then
      let r := reset_main_connection ts
      if r.1 = ER_CONN_NO_PAGE_SERVER_AVAILABLE then
        (r.2, evs ++ [ts_event.handler_call i, ts_event.reset_call])
      else
        push_request_go fuel r.2
          (evs ++ [ts_event.handler_call i, ts_event.reset_call])
    else (ts, evs ++ [ts_event.handler_call i])

/-- Server-level `tran_server::push_request` (returns `void`; the result is the final
server state and the trace of handler calls / rotations). -/
def push_request (ts : tsrv) : tsrv × List ts_event :=
  push_request_go (ts.m_page_server_conn_vec.length + 2) ts []

/-- Loop body of `tran_server::send_receive`: identical to `push_request`
except that `ER_CONN_NO_PAGE_SERVER_AVAILABLE` is returned to the caller and
the last per-handler result code is returned on normal exit. -/
def send_receive_go : Nat → tsrv → List ts_event → Int × tsrv × List ts_event
  | 0, ts, evs => (NO_ERROR, ts, evs)
  | Nat.succ fuel, ts, evs =>
    let i := ts.m_main_conn.getD 0
    let err := handler_send_receive (main_handler ts)
    if err ≠ NO_ERROR ∧ is_connected (main_handler ts) = false then
      let r := reset_main_connection ts
      if r.1 = ER_CONN_NO_PAGE_SERVER_AVAILABLE then
        (r.1, r.2, evs ++ [ts_event.handler_call i, ts_event.reset_call])
      else
        send_receive_go fuel r.2
          (evs ++ [ts_event.handler_call i, ts_event.reset_call])
    else (err, ts, evs ++ [ts_event.handler_call i])

/-- Server-level `tran_server::send_receive`. -/
def send_receive (ts : tsrv) : Int × tsrv × List ts_event :=
  send_receive_go (ts.m_page_server_conn_vec.length + 2) ts []

/-- ASCII decimal digit. -/
def is_ascii_digit (c : Char) : Bool :=
  decide ('0' ≤ c) && decide (c ≤ '9')

/-- Decimal value of a digit string (most significant first). -/
def digits_to_nat (ds : List Char) : Nat :=
  ds.foldl (fun acc c => acc * 10 + (c.toNat - 48)) 0

/-- The `INT_MAX` bound of the 32-bit `int` returned by `std::stoi`. -/
def INT_MAX : Int := 2147483647

/--
Model of `std::stoi` on the port substring: skip leading whitespace, optional sign,
then at least one decimal digit (further characters are ignored); both
`std::invalid_argument` (no digits) and `std::out_of_range` (value outside
`int`) are swallowed by the `catch (...)` in `register_connection_handler`,
leaving `port = -1`, so both are modelled as `none`.
-/
def stoi_opt (s : List Char) : Option Int :=
  let s1 := s.dropWhile Char.isWhitespace
  let core : Bool × List Char :=
    match s1 with
    | c :: rest =>
      if c = '-' then (true, rest)
      else if c = '+' then (false, rest) else (false, s1)
    | [] => (false, s1)
  let ds := core.2.takeWhile is_ascii_digit
  if ds.isEmpty then none
  else
    let v : Int := Int.ofNat (digits_to_nat ds)
    if core.1 then
      if v > INT_MAX + 1 then none else some (-v)
    else
      if v > INT_MAX then none else some v

/--
Function `tran_server::register_connection_handler` on one `host:port` token:
`col_pos = host.find (":")` must satisfy neither `col_pos < 1` nor
`col_pos >= host.length () - 1` in `size_t` arithmetic (so: a colon exists,
not at position 0 and not at the last position), the port must parse and lie
in `[1, USHRT_MAX]`; then the node `(host prefix, port)` is appended to
`m_page_server_conn_vec`.  `none` models the `ER_HOST_PORT_PARAMETER`
warning-return (no node registered).
-/
def register_connection_handler (host : List Char) :
    Option (List Char × Int) :=
  match find_if_idx (fun c => decide (c = ':')) host with
  | none => none
  | some col_pos =>
    if col_pos = 0 ∨ col_pos + 1 ≥ host.length then none
    else
      let port := (stoi_opt (host.drop (col_pos + 1))).getD (-1)
      if port < 1 ∨ port > 65535 then none
      else some (host.take col_pos, port)

/-- The find-and-erase loop of `register_connection_handlers`: the pieces of
the string delimited by each `,`, final remainder included (rendered
structurally; it emits exactly the prefix before each comma and then the
leftover suffix, as the `while (find (",")) / erase` loop does). -/
def split_on_comma_aux : List Char → List Char → List (List Char)
  | [], cur => [cur.reverse]
  | c :: rest, cur =>
    if c = ',' then cur.reverse :: split_on_comma_aux rest []
    else split_on_comma_aux rest (c :: cur)

/-- Comma tokenisation of the hosts string. -/
def split_on_comma (s : List Char) : List (List Char) :=
  split_on_comma_aux s []

/--
Function `tran_server::register_connection_handlers`: FIRST the whole hosts string is
subjected to the same colon-position check as a single token (`hosts.find
(":")`, rejecting position 0, last position, or no colon) — failing it
returns `ER_HOST_PORT_PARAMETER` immediately, before any token is examined.
Then each comma-delimited token goes through `register_connection_handler`;
a failing token downgrades the exit code but the loop continues.  Returns the
exit code and the registered nodes in order.
-/
def register_connection_handlers (hosts : List Char) :
    Int × List (List Char × Int) :=
  match find_if_idx (fun c => decide (c = ':')) hosts with
  | none => (ER_HOST_PORT_PARAMETER, [])
  | some col_pos =>
    if col_pos = 0 ∨ col_pos + 1 ≥ hosts.length then
      (ER_HOST_PORT_PARAMETER, [])
    else
      (split_on_comma hosts).foldl
        (fun acc t =>
          match register_connection_handler t with
          | none => (ER_HOST_PORT_PARAMETER, acc.2)
          | some nd => (acc.1, acc.2 ++ [nd]))
        (NO_ERROR, [])

/-! Concrete fixtures used by the worked examples and witnesses. -/

/-- A handler in a given state with a given saved LSA. -/
def mk_handler (s : conn_state) (lsa : Int) : connection_handler :=
  ⟨s, decide (s = conn_state.CONNECTED), false, lsa, none, false, 0, false⟩

/-- A `CONNECTED` handler whose channel `send_recv` round-trips fail. -/
def mk_handler_sr_fail : connection_handler :=
  ⟨conn_state.CONNECTED, true, false, 0, none, false, 0, true⟩

/-- Example `N=5, S=[5,5,6,9,10]` (all connected). -/
def consensus_ex1 : List connection_handler :=
  [mk_handler conn_state.CONNECTED 5, mk_handler conn_state.CONNECTED 5,
   mk_handler conn_state.CONNECTED 6, mk_handler conn_state.CONNECTED 9,
   mk_handler conn_state.CONNECTED 10]

/-- Example `N=2, S=[9,10]`. -/
def consensus_ex2 : List connection_handler :=
  [mk_handler conn_state.CONNECTED 9, mk_handler conn_state.CONNECTED 10]

/-- Example `N=5, S=[5,6,9,10]` (one handler not connected). -/
def consensus_ex3 : List connection_handler :=
  [mk_handler conn_state.CONNECTED 5, mk_handler conn_state.IDLE 7,
   mk_handler conn_state.CONNECTED 6, mk_handler conn_state.CONNECTED 9,
   mk_handler conn_state.CONNECTED 10]

/-- Example `N=3, S=[9,10]` (one handler not connected). -/
def consensus_ex4 : List connection_handler :=
  [mk_handler conn_state.CONNECTED 9, mk_handler conn_state.IDLE 0,
   mk_handler conn_state.CONNECTED 10]

/-- The spec's worked hosts string whose first colon is at position 0. -/
def hosts_ex : List Char := (":80,a:1,b:-1,c:99999,d:20").toList

/-- The same token list without the leading bad token. -/
def hosts_ex2 : List Char := ("a:1,b:-1,c:99999,d:20").toList

/-- A server with one `IDLE` handler and a (stale) main pointer at index 0. -/
def ts_stale : tsrv := ⟨[mk_handler conn_state.IDLE 0], some 0⟩

/-- A server whose main (index 0) is dead while index 1 is connected. -/
def ts_rotate : tsrv :=
  ⟨[mk_handler conn_state.IDLE 0, mk_handler conn_state.CONNECTED 1], some 0⟩

/-- A server whose main is connected but whose channel round-trips fail. -/
def ts_sr_fail : tsrv := ⟨[mk_handler_sr_fail], some 0⟩

/-! ## Theorems -/

/-- The collection loop of `compute_consensus_lsa` gathers exactly the saved
LSAs of the connected handlers and counts them. -/
theorem collect_foldl (v : List connection_handler) (acc : List Int × Nat) :
    v.foldl (fun (acc : List Int × Nat) c =>
        if is_connected c then (acc.1 ++ [get_saved_lsa c], acc.2 + 1)
        else acc) acc
      = (acc.1 ++ saved_of_connected v,
         acc.2 + (saved_of_connected v).length) := by
  induction v generalizing acc with
  | nil => simp [saved_of_connected]
  | cons c v ih =>
    simp only [List.foldl_cons]
    by_cases hc : is_connected c
    · rw [if_pos hc, ih]
      simp only [saved_of_connected, List.filter_cons, hc, if_pos,
        List.map_cons, List.append_assoc, List.singleton_append,
        List.length_cons, Prod.mk.injEq]
      exact ⟨trivial, by omega⟩
    · rw [if_neg hc, ih]
      simp only [saved_of_connected, List.filter_cons]
      rw [if_neg (by simpa using hc)]

/--
C1: `compute_consensus_lsa` — for every handler vector of size `N` with
quorum `q = N/2 + 1` and `S` the saved LSAs of the currently connected
handlers, the result is `NULL_LSA` when `|S| < q` and otherwise the element
at index `|S| - q` of `S` sorted ascending (`t` below ranges over the sorted
rearrangements of `S`, which are unique); and the four worked examples of the
spec hold.
-/
theorem consensus_lsa_spec :
    (∀ (v : List connection_handler) (t : List Int),
        t.Perm (saved_of_connected v) →
        t.Sorted (fun a b : Int => a ≤ b) →
        compute_consensus_lsa v =
          if (saved_of_connected v).length < v.length / 2 + 1 then NULL_LSA
          else t.getD ((saved_of_connected v).length - (v.length / 2 + 1))
            NULL_LSA)
    ∧ compute_consensus_lsa consensus_ex1 = 6
    ∧ compute_consensus_lsa consensus_ex2 = 9
    ∧ compute_consensus_lsa consensus_ex3 = 6
    ∧ compute_consensus_lsa consensus_ex4 = 9 := by
  refine ⟨?_, by decide, by decide, by decide, by decide⟩
  intro v t hperm hsort
  have hs : List.insertionSort (fun a b : Int => a ≤ b)
      (saved_of_connected v) = t :=
    List.eq_of_perm_of_sorted
      ((List.perm_insertionSort _ _).trans hperm.symm)
      (List.sorted_insertionSort _ _) hsort
  simp only [compute_consensus_lsa, collect_foldl, List.nil_append,
    Nat.zero_add, hs]

/-- Witness for C1 at the fourth worked example. -/
theorem consensus_lsa_spec_witness :
    compute_consensus_lsa consensus_ex4 =
      if (saved_of_connected consensus_ex4).length
          < consensus_ex4.length / 2 + 1 then NULL_LSA
      else ([9, 10] : List Int).getD
        ((saved_of_connected consensus_ex4).length
          - (consensus_ex4.length / 2 + 1)) NULL_LSA :=
  consensus_lsa_spec.1 consensus_ex4 [9, 10] (by decide) (by decide)

/-- The token loop of `register_connection_handlers` processes every token
independently: the registered nodes are the `filterMap` of the per-token
parser, regardless of interleaved failures. -/
theorem process_tokens_foldl (toks : List (List Char)) (code : Int)
    (acc : List (List Char × Int)) :
    (toks.foldl (fun acc t =>
        match register_connection_handler t with
        | none => (ER_HOST_PORT_PARAMETER, acc.2)
        | some nd => (acc.1, acc.2 ++ [nd])) (code, acc)).2
      = acc ++ toks.filterMap register_connection_handler := by
  induction toks generalizing code acc with
  | nil => simp
  | cons t toks ih =>
    cases hr : register_connection_handler t with
    | none =>
      simp only [List.foldl_cons, List.filterMap_cons, hr]
      exact ih _ _
    | some nd =>
      simp only [List.foldl_cons, List.filterMap_cons, hr]
      rw [ih]
      simp

/--
C2 counterexample: parsing the hosts string `":80,a:1,b:-1,c:99999,d:20"`
does NOT register one node `(a,1)` — the whole-string colon check at the top
of `register_connection_handlers` sees the first colon at position 0 and
returns `ER_HOST_PORT_PARAMETER` before any token is processed, so zero
handlers are registered.
-/
theorem hosts_parsing_counterexample :
    ¬ ((register_connection_handlers hosts_ex).2 = [(("a").toList, 1)]) := by
  decide

/--
C2 amended: once the hosts string passes the initial whole-string colon
check, rejecting one malformed `host:port` token does not abort processing
of the remaining tokens (the registered nodes are exactly the per-token
parses); but `":80,a:1,b:-1,c:99999,d:20"` fails that initial check (first
colon at position 0), so it registers zero handlers and reports
`ER_HOST_PORT_PARAMETER`, while `"a:1,b:-1,c:99999,d:20"` registers
`(a,1)` and `(d,20)` despite the bad middle tokens.
-/
theorem hosts_parsing_amended :
    (∀ (hosts : List Char) (col_pos : Nat),
        find_if_idx (fun c => decide (c = ':')) hosts = some col_pos →
        ¬ (col_pos = 0 ∨ col_pos + 1 ≥ hosts.length) →
        (register_connection_handlers hosts).2
          = (split_on_comma hosts).filterMap register_connection_handler)
    ∧ (register_connection_handlers hosts_ex).2 = []
    ∧ (register_connection_handlers hosts_ex).1 = ER_HOST_PORT_PARAMETER
    ∧ (register_connection_handlers hosts_ex2).2
        = [(("a").toList, 1), (("d").toList, 20)] := by
  refine ⟨?_, by decide, by decide, by decide⟩
  intro hosts p hf hnot
  simp only [register_connection_handlers, hf]
  rw [if_neg hnot]
  simpa using process_tokens_foldl (split_on_comma hosts) NO_ERROR []

/-- Witness for the amended C2 on the token list that passes the initial
check. -/
theorem hosts_parsing_amended_witness :
    (register_connection_handlers hosts_ex2).2
      = (split_on_comma hosts_ex2).filterMap register_connection_handler :=
  hosts_parsing_amended.1 hosts_ex2 1 (by decide) (by decide)

/-- Lemma: `find_if_idx` succeeds at the first index satisfying the predicate. -/
theorem find_if_idx_first {α : Type} (p : α → Bool) (d : α) :
    ∀ (l : List α) (j : Nat), j < l.length → p (l.getD j d) = true →
      (∀ k, k < j → p (l.getD k d) = false) →
      find_if_idx p l = some j := by
  intro l
  induction l with
  | nil => intro j hj; simp at hj
  | cons a l ih =>
    intro j hj hpj hk
    cases j with
    | zero =>
      simp only [List.getD_cons_zero] at hpj
      simp [find_if_idx, hpj]
    | succ j' =>
      have ha : p a = false := by
        have := hk 0 (Nat.succ_pos j')
        simpa using this
      simp only [find_if_idx, ha]
      rw [if_neg (by simp [ha])]
      have hr : find_if_idx p l = some j' := by
        apply ih
        · simpa using Nat.lt_of_succ_lt_succ hj
        · simpa using hpj
        · intro k hkj
          have := hk (k + 1) (Nat.succ_lt_succ hkj)
          simpa using this
      rw [hr]
      rfl

/-- Lemma: `find_if_idx` fails iff nothing below the length satisfies the
predicate; stated with `getD` so the default also fails the predicate. -/
theorem find_if_idx_none {α : Type} (p : α → Bool) (d : α) (_hd : p d = false) :
    ∀ l : List α, (∀ k, k < l.length → p (l.getD k d) = false) →
      find_if_idx p l = none := by
  intro l
  induction l with
  | nil => intro; rfl
  | cons a l ih =>
    intro hk
    have ha : p a = false := by simpa using hk 0 (Nat.succ_pos _)
    simp only [find_if_idx]
    rw [if_neg (by simp [ha])]
    rw [ih (fun k hkl => by simpa using hk (k + 1) (Nat.succ_lt_succ hkl))]
    rfl

/-- From a failed `find_if_idx`, every `getD` access fails the predicate. -/
theorem find_if_idx_none_getD {α : Type} (p : α → Bool) (d : α)
    (hd : p d = false) :
    ∀ l : List α, find_if_idx p l = none →
      ∀ i : Nat, p (l.getD i d) = false := by
  intro l
  induction l with
  | nil => intro _ i; simpa using hd
  | cons a l ih =>
    intro hn i
    simp only [find_if_idx] at hn
    by_cases ha : p a = true
    · rw [if_pos ha] at hn
      exact absurd hn (by simp)
    · rw [if_neg ha] at hn
      have hl : find_if_idx p l = none := by
        cases hfl : find_if_idx p l with
        | none => rfl
        | some v => rw [hfl] at hn; exact absurd hn (by simp)
      cases i with
      | zero => simpa using Bool.eq_false_iff.mpr ha
      | succ i' => simpa using ih hl i'

/--
C3 counterexample: with a single `IDLE` handler and the main-connection
pointer at index 0, `reset_main_connection` returns
`ER_CONN_NO_PAGE_SERVER_AVAILABLE` but does NOT set the main-connection
pointer to null — it stays at index 0.
-/
theorem reset_main_null_counterexample :
    (reset_main_connection ts_stale).1 = ER_CONN_NO_PAGE_SERVER_AVAILABLE
    ∧ ¬ ((reset_main_connection ts_stale).2.m_main_conn = none) := by
  decide

/--
C3 amended: `reset_main_connection` selects the first handler in
registration order whose `is_connected()` is true; when no handler is
connected it returns `ER_CONN_NO_PAGE_SERVER_AVAILABLE` and leaves the
server state — in particular the stored main-connection pointer — unchanged
(it does not set the pointer to null).
-/
theorem reset_main_first_connected :
    (∀ (ts : tsrv) (j : Nat),
        j < ts.m_page_server_conn_vec.length →
        is_connected (ts.m_page_server_conn_vec.getD j default) = true →
        (∀ k, k < j →
          is_connected (ts.m_page_server_conn_vec.getD k default) = false) →
        reset_main_connection ts
          = (NO_ERROR, { ts with m_main_conn := some j }))
    ∧ (∀ ts : tsrv,
        (∀ k, k < ts.m_page_server_conn_vec.length →
          is_connected (ts.m_page_server_conn_vec.getD k default) = false) →
        reset_main_connection ts = (ER_CONN_NO_PAGE_SERVER_AVAILABLE, ts)) := by
  constructor
  · intro ts j hj hpj hk
    simp only [reset_main_connection,
      find_if_idx_first is_connected default ts.m_page_server_conn_vec j
        hj hpj hk]
  · intro ts hk
    simp only [reset_main_connection,
      find_if_idx_none is_connected default (by decide)
        ts.m_page_server_conn_vec hk]

/-- Witness for the amended C3: with `[IDLE, CONNECTED]` the rotation picks
index 1. -/
theorem reset_main_first_connected_witness :
    reset_main_connection ts_rotate
      = (NO_ERROR, { ts_rotate with m_main_conn := some 1 }) :=
  reset_main_first_connected.1 ts_rotate 1 (by decide) (by decide)
    (by decide)

/-- A handler that is not `CONNECTED` fails `push_request` locally. -/
theorem handler_push_request_dead (h : connection_handler)
    (hc : is_connected h = false) :
    handler_push_request h = ER_CONN_PAGE_SERVER_CANNOT_BE_REACHED := by
  unfold handler_push_request
  rw [if_neg]
  simpa [is_connected] using hc

/-- A `CONNECTED` handler's `push_request` succeeds (`m_conn->push` returns
`void`). -/
theorem handler_push_request_live (h : connection_handler)
    (hc : is_connected h = true) :
    handler_push_request h = NO_ERROR := by
  unfold handler_push_request
  rw [if_pos]
  simpa [is_connected] using hc

/-- A handler that is not `CONNECTED` fails `send_receive` locally. -/
theorem handler_send_receive_dead (h : connection_handler)
    (hc : is_connected h = false) :
    handler_send_receive h = ER_CONN_PAGE_SERVER_CANNOT_BE_REACHED := by
  unfold handler_send_receive
  rw [if_neg]
  simpa [is_connected] using hc

/-- Lemma: `reset_main_connection` on a successful candidate search. -/
theorem reset_main_some (ts : tsrv) (j : Nat)
    (hf : find_if_idx is_connected ts.m_page_server_conn_vec = some j) :
    reset_main_connection ts = (NO_ERROR, { ts with m_main_conn := some j }) := by
  simp [reset_main_connection, hf]

/-- Lemma: `reset_main_connection` when no handler is connected. -/
theorem reset_main_none (ts : tsrv)
    (hf : find_if_idx is_connected ts.m_page_server_conn_vec = none) :
    reset_main_connection ts = (ER_CONN_NO_PAGE_SERVER_AVAILABLE, ts) := by
  simp [reset_main_connection, hf]

/-- Lemma: `push_request` with a dead main and a connected candidate: one failed
call, one rotation, one successful retry. -/
theorem push_request_dead_main (ts : tsrv) (i j : Nat)
    (hm : ts.m_main_conn = some i)
    (hc : is_connected (main_handler ts) = false)
    (hf : find_if_idx is_connected ts.m_page_server_conn_vec = some j)
    (hj : is_connected (ts.m_page_server_conn_vec.getD j default) = true) :
    push_request ts = ({ ts with m_main_conn := some j },
      [ts_event.handler_call i, ts_event.reset_call,
       ts_event.handler_call j]) := by
  have hj2 : is_connected (main_handler { ts with m_main_conn := some j })
      = true := by
    simpa [main_handler] using hj
  have e1 : ER_CONN_PAGE_SERVER_CANNOT_BE_REACHED = NO_ERROR ↔ False := by
    decide
  have e2 : NO_ERROR = ER_CONN_NO_PAGE_SERVER_AVAILABLE ↔ False := by decide
  unfold push_request
  simp only [push_request_go, hm, Option.getD_some,
    handler_push_request_dead _ hc, hc, reset_main_some ts j hf,
    handler_push_request_live _ hj2, hj2, e1, e2]
  simp
  decide

/-- Lemma: `push_request` when the main is dead and no handler is connected: the
rotation fails and push returns silently, with the stale pointer intact. -/
theorem push_request_no_ps (ts : tsrv) (i : Nat)
    (hm : ts.m_main_conn = some i)
    (hf : find_if_idx is_connected ts.m_page_server_conn_vec = none) :
    push_request ts = (ts, [ts_event.handler_call i, ts_event.reset_call]) := by
  have hc : is_connected (main_handler ts) = false := by
    simpa [main_handler, hm] using
      find_if_idx_none_getD is_connected default (by decide) _ hf i
  have e1 : ER_CONN_PAGE_SERVER_CANNOT_BE_REACHED = NO_ERROR ↔ False := by
    decide
  unfold push_request
  simp only [push_request_go, hm, Option.getD_some,
    handler_push_request_dead _ hc, hc, reset_main_none ts hf, e1]
  rw [if_pos (by simp [e1])]
  simp

/-- Lemma: `push_request` with a connected main: a single successful call, no
rotation. -/
theorem push_request_live_main (ts : tsrv) (i : Nat)
    (hm : ts.m_main_conn = some i)
    (hc : is_connected (main_handler ts) = true) :
    push_request ts = (ts, [ts_event.handler_call i]) := by
  unfold push_request
  simp only [push_request_go, hm, Option.getD_some,
    handler_push_request_live _ hc]
  rw [if_neg (by simp)]
  simp

/-- Lemma: `send_receive` with a dead main and a connected candidate: failed call,
rotation, retry whose per-handler result is surfaced. -/
theorem send_receive_dead_main (ts : tsrv) (i j : Nat)
    (hm : ts.m_main_conn = some i)
    (hc : is_connected (main_handler ts) = false)
    (hf : find_if_idx is_connected ts.m_page_server_conn_vec = some j)
    (hj : is_connected (ts.m_page_server_conn_vec.getD j default) = true) :
    send_receive ts
      = (handler_send_receive (ts.m_page_server_conn_vec.getD j default),
         { ts with m_main_conn := some j },
         [ts_event.handler_call i, ts_event.reset_call,
          ts_event.handler_call j]) := by
  have hj2 : is_connected (main_handler { ts with m_main_conn := some j })
      = true := by
    simpa [main_handler] using hj
  have e1 : ER_CONN_PAGE_SERVER_CANNOT_BE_REACHED = NO_ERROR ↔ False := by
    decide
  have e2 : NO_ERROR = ER_CONN_NO_PAGE_SERVER_AVAILABLE ↔ False := by decide
  unfold send_receive
  simp only [send_receive_go, hm, Option.getD_some,
    handler_send_receive_dead _ hc, hc, reset_main_some ts j hf, hj2, e1, e2]
  simp [main_handler]
  decide

/-- Lemma: `send_receive` when the main is dead and no handler is connected:
`ER_CONN_NO_PAGE_SERVER_AVAILABLE` is surfaced to the caller. -/
theorem send_receive_no_ps (ts : tsrv) (i : Nat)
    (hm : ts.m_main_conn = some i)
    (hf : find_if_idx is_connected ts.m_page_server_conn_vec = none) :
    send_receive ts = (ER_CONN_NO_PAGE_SERVER_AVAILABLE, ts,
      [ts_event.handler_call i, ts_event.reset_call]) := by
  have hc : is_connected (main_handler ts) = false := by
    simpa [main_handler, hm] using
      find_if_idx_none_getD is_connected default (by decide) _ hf i
  have e1 : ER_CONN_PAGE_SERVER_CANNOT_BE_REACHED = NO_ERROR ↔ False := by
    decide
  unfold send_receive
  simp only [send_receive_go, hm, Option.getD_some,
    handler_send_receive_dead _ hc, hc, reset_main_none ts hf, e1]
  rw [if_pos (by simp [e1])]
  simp

/-- Lemma: `send_receive` with a connected main: one call and no rotation, even
when the per-handler call fails (connection still reported connected). -/
theorem send_receive_live_main (ts : tsrv) (i : Nat)
    (hm : ts.m_main_conn = some i)
    (hc : is_connected (main_handler ts) = true) :
    send_receive ts = (handler_send_receive (main_handler ts), ts,
      [ts_event.handler_call i]) := by
  unfold send_receive
  simp only [send_receive_go, hm, Option.getD_some, hc]
  rw [if_neg (by simp)]
  simp [main_handler, hm]

/--
C8: on a per-handler failure with the main connection no longer connected,
both `push_request` and `send_receive` invoke `reset_main_connection` and
retry on the new main; when the rotation reports
`ER_CONN_NO_PAGE_SERVER_AVAILABLE`, `push_request` returns silently (it is
`void`; the trace ends after the rotation) while `send_receive` returns that
error to the caller; on failure with the connection still reported
connected, neither retries (single call in the trace, no rotation).
-/
theorem request_path_error_propagation :
    (∀ (ts : tsrv) (i j : Nat),
        ts.m_main_conn = some i →
        is_connected (main_handler ts) = false →
        find_if_idx is_connected ts.m_page_server_conn_vec = some j →
        is_connected (ts.m_page_server_conn_vec.getD j default) = true →
        push_request ts = ({ ts with m_main_conn := some j },
          [ts_event.handler_call i, ts_event.reset_call,
           ts_event.handler_call j])
        ∧ send_receive ts
          = (handler_send_receive (ts.m_page_server_conn_vec.getD j default),
             { ts with m_main_conn := some j },
             [ts_event.handler_call i, ts_event.reset_call,
              ts_event.handler_call j]))
    ∧ (∀ (ts : tsrv) (i : Nat),
        ts.m_main_conn = some i →
        find_if_idx is_connected ts.m_page_server_conn_vec = none →
        push_request ts = (ts, [ts_event.handler_call i, ts_event.reset_call])
        ∧ send_receive ts = (ER_CONN_NO_PAGE_SERVER_AVAILABLE, ts,
            [ts_event.handler_call i, ts_event.reset_call]))
    ∧ (∀ (ts : tsrv) (i : Nat),
        ts.m_main_conn = some i →
        is_connected (main_handler ts) = true →
        push_request ts = (ts, [ts_event.handler_call i])
        ∧ send_receive ts = (handler_send_receive (main_handler ts), ts,
            [ts_event.handler_call i])) := by
  refine ⟨?_, ?_, ?_⟩
  · intro ts i j hm hc hf hj
    exact ⟨push_request_dead_main ts i j hm hc hf hj,
           send_receive_dead_main ts i j hm hc hf hj⟩
  · intro ts i hm hf
    exact ⟨push_request_no_ps ts i hm hf, send_receive_no_ps ts i hm hf⟩
  · intro ts i hm hc
    exact ⟨push_request_live_main ts i hm hc,
           send_receive_live_main ts i hm hc⟩

/-- Witness for C8: a dead main at index 0 with a connected handler at
index 1 rotates and retries. -/
theorem request_path_error_propagation_witness :
    push_request ts_rotate = ({ ts_rotate with m_main_conn := some 1 },
      [ts_event.handler_call 0, ts_event.reset_call, ts_event.handler_call 1])
    ∧ send_receive ts_rotate
      = (handler_send_receive (ts_rotate.m_page_server_conn_vec.getD 1 default),
         { ts_rotate with m_main_conn := some 1 },
         [ts_event.handler_call 0, ts_event.reset_call,
          ts_event.handler_call 1]) :=
  request_path_error_propagation.1 ts_rotate 0 1 (by decide) (by decide)
    (by decide) (by decide)

/--
C10 (implicit frame property): when no handler is connected,
`reset_main_connection` returns `ER_CONN_NO_PAGE_SERVER_AVAILABLE` without
writing to the stored main-connection pointer (the whole server state is
returned unchanged), so a previously selected stale main connection stays
stored and is still the handler dereferenced by subsequent `push_request` /
`send_receive` calls.
-/
theorem reset_main_frame_stale_pointer :
    (∀ ts : tsrv,
        find_if_idx is_connected ts.m_page_server_conn_vec = none →
        reset_main_connection ts = (ER_CONN_NO_PAGE_SERVER_AVAILABLE, ts))
    ∧ (∀ (ts : tsrv) (i : Nat),
        ts.m_main_conn = some i →
        find_if_idx is_connected ts.m_page_server_conn_vec = none →
        (push_request ts).1.m_main_conn = some i
        ∧ (push_request ts).2
            = [ts_event.handler_call i, ts_event.reset_call]
        ∧ (send_receive ts).2.1.m_main_conn = some i) := by
  refine ⟨fun ts hf => reset_main_none ts hf, ?_⟩
  intro ts i hm hf
  rw [push_request_no_ps ts i hm hf, send_receive_no_ps ts i hm hf]
  exact ⟨hm, rfl, hm⟩

/-- Witness for C10 on the single-stale-handler server. -/
theorem reset_main_frame_stale_pointer_witness :
    (push_request ts_stale).1.m_main_conn = some 0
    ∧ (push_request ts_stale).2
        = [ts_event.handler_call 0, ts_event.reset_call]
    ∧ (send_receive ts_stale).2.1.m_main_conn = some 0 :=
  reset_main_frame_stale_pointer.2 ts_stale 0 (by decide) (by decide)

/--
C4: after a successful handshake, the ATS `transition_to_connected` leaves
the handler `CONNECTING` (having registered the prior-sender sink and pushed
`SEND_START_CATCH_UP`); `receive_catchup_complete` flips `CONNECTING` to
`CONNECTED`; and among all handler operations, only `SEND_CATCHUP_COMPLETE`
can bring a handler that was not `CONNECTED` into `CONNECTED`.
-/
theorem ats_catchup_gating :
    (∀ (env : net_env) (ct : Int) (h : connection_handler),
        h.m_state = conn_state.IDLE →
        env.tcp_ok = true → env.send_ok = true → env.recv_ok = true →
        env.echoed = ct →
        (connect env ct h).1 = NO_ERROR
        ∧ (connect env ct h).2.1.m_state = conn_state.CONNECTING
        ∧ (connect env ct h).2.1.m_prior_sender_sink = true
        ∧ (connect env ct h).2.2.1 = [req.SEND_START_CATCH_UP])
    ∧ (∀ h : connection_handler, h.m_state = conn_state.CONNECTING →
        (receive_catchup_complete h).1.m_state = conn_state.CONNECTED)
    ∧ (∀ (ct : Int) (op : hop) (h : connection_handler),
        (hstep ct op h).1.m_state = conn_state.CONNECTED →
        h.m_state = conn_state.CONNECTED ∨ op = hop.catchup_complete) := by
  refine ⟨?_, ?_, ?_⟩
  · intro env ct h hst htcp hsend hrecv hech
    simp [connect, hst, htcp, hsend, hrecv, hech]
  · intro h hst
    simp [receive_catchup_complete, hst]
  · intro ct op h hc
    cases op with
    | connect env =>
      left
      by_cases hst : h.m_state = conn_state.IDLE
      · simp only [hstep, connect, hst, if_true, if_pos] at hc
        split_ifs at hc
      · simpa [hstep, connect, hst] using hc
    | disconnect_async b =>
      left
      by_cases hst : h.m_state = conn_state.IDLE
          ∨ h.m_state = conn_state.DISCONNECTING
      · simpa [hstep, disconnect_async, hst] using hc
      · simp [hstep, disconnect_async, hst] at hc
    | finish_disconnect =>
      left
      cases hp : h.m_disconn_pending with
      | none => simpa [hstep, finish_disconnect, hp] using hc
      | some b =>
        by_cases hst : h.m_state = conn_state.DISCONNECTING
        · simp [hstep, finish_disconnect, hp, hst, teardown] at hc
        · simpa [hstep, finish_disconnect, hp, hst] using hc
    | wait_async_disconnection =>
      left
      by_cases hv : h.m_disconn_future_valid
      · cases hp : h.m_disconn_pending with
        | none => simpa [hstep, wait_async_disconnection, hv, hp] using hc
        | some b =>
          by_cases hst : h.m_state = conn_state.DISCONNECTING
          · simp [hstep, wait_async_disconnection, hv, hp, hst,
              teardown] at hc
          · simpa [hstep, wait_async_disconnection, hv, hp, hst] using hc
      · simpa [hstep, wait_async_disconnection, hv] using hc
    | catchup_complete => right; rfl
    | saved_lsa l =>
      left
      by_cases hl : l > get_saved_lsa h
      · simpa [hstep, receive_saved_lsa, hl] using hc
      · simpa [hstep, receive_saved_lsa, hl] using hc

/-- Witness for C4: a fresh handler after a clean handshake. -/
theorem ats_catchup_gating_witness :
    (connect ⟨true, true, true, 3⟩ 3 init_handler).1 = NO_ERROR
    ∧ (connect ⟨true, true, true, 3⟩ 3 init_handler).2.1.m_state
        = conn_state.CONNECTING
    ∧ (connect ⟨true, true, true, 3⟩ 3 init_handler).2.1.m_prior_sender_sink
        = true
    ∧ (connect ⟨true, true, true, 3⟩ 3 init_handler).2.2.1
        = [req.SEND_START_CATCH_UP] :=
  ats_catchup_gating.1 ⟨true, true, true, 3⟩ 3 init_handler rfl rfl rfl rfl
    rfl

/--
C6: `disconnect_async` is a no-op (no state change, no new teardown future,
no spawn) while the handler is `IDLE` or `DISCONNECTING`; two consecutive
calls on a `CONNECTED` handler spawn exactly one teardown future, the second
call changing nothing; and `wait_async_disconnection` then leaves the
handler `IDLE`.
-/
theorem disconnect_async_idempotence :
    (∀ (b : Bool) (h : connection_handler),
        h.m_state = conn_state.IDLE ∨ h.m_state = conn_state.DISCONNECTING →
        disconnect_async b h = (h, []))
    ∧ (∀ (b b2 : Bool) (h : connection_handler),
        h.m_state = conn_state.CONNECTED →
        (disconnect_async b2 (disconnect_async b h).1).1
            = (disconnect_async b h).1
        ∧ (disconnect_async b h).1.spawned_futures = h.spawned_futures + 1
        ∧ (wait_async_disconnection
              (disconnect_async b2 (disconnect_async b h).1).1).1.m_state
            = conn_state.IDLE) := by
  constructor
  · intro b h hst
    simp [disconnect_async, hst]
  · intro b b2 h hst
    simp [disconnect_async, wait_async_disconnection, teardown, hst]

/-- Witness for C6: double disconnect then wait on a connected handler. -/
theorem disconnect_async_idempotence_witness :
    (disconnect_async true
        (disconnect_async true (mk_handler conn_state.CONNECTED 0)).1).1
      = (disconnect_async true (mk_handler conn_state.CONNECTED 0)).1
    ∧ ((disconnect_async true (mk_handler conn_state.CONNECTED 0)).1).spawned_futures
      = (mk_handler conn_state.CONNECTED 0).spawned_futures + 1
    ∧ (wait_async_disconnection (disconnect_async true
        (disconnect_async true
          (mk_handler conn_state.CONNECTED 0)).1).1).1.m_state
      = conn_state.IDLE :=
  disconnect_async_idempotence.2 true true (mk_handler conn_state.CONNECTED 0)
    rfl

/--
C7: starting from `IDLE`, `connect()` returns
`ER_NET_PAGESERVER_CONNECTION` exactly when the TCP connect, `send_int` or
`recv_int` fails or the echoed integer differs from `conn_type`; and on any
such failure the handler is rolled back unchanged (in particular its state
is back to `IDLE`).
-/
theorem connect_failure_atomicity :
    ∀ (env : net_env) (ct : Int) (h : connection_handler),
      h.m_state = conn_state.IDLE →
      (((connect env ct h).1 = ER_NET_PAGESERVER_CONNECTION)
        ↔ (env.tcp_ok = false ∨ env.send_ok = false ∨ env.recv_ok = false
            ∨ env.echoed ≠ ct))
      ∧ ((env.tcp_ok = false ∨ env.send_ok = false ∨ env.recv_ok = false
            ∨ env.echoed ≠ ct) →
          (connect env ct h).2.1 = h
          ∧ (connect env ct h).2.1.m_state = conn_state.IDLE) := by
  intro env ct h hst
  obtain ⟨s, c, sink, lsa, pend, fv, sp, ef⟩ := h
  simp only at hst
  subst hst
  have hno : (NO_ERROR = ER_NET_PAGESERVER_CONNECTION) ↔ False := by decide
  have her : (ER_NET_PAGESERVER_CONNECTION = ER_NET_PAGESERVER_CONNECTION)
      ↔ True := by simp
  simp only [connect, if_pos]
  split_ifs with h1 h2 h3 h4 <;> simp_all

/-- Witness for C7 at a failing TCP connect. -/
theorem connect_failure_atomicity_witness :
    (connect ⟨false, true, true, 3⟩ 3 init_handler).2.1 = init_handler
    ∧ (connect ⟨false, true, true, 3⟩ 3 init_handler).2.1.m_state
        = conn_state.IDLE :=
  (connect_failure_atomicity ⟨false, true, true, 3⟩ 3 init_handler rfl).2
    (Or.inl rfl)

/--
C9: a handler's `saved_lsa` starts at `NULL_LSA` and is monotonically
non-decreasing under every operation; `receive_saved_lsa` asserts that the
inbound value is `>=` the stored one, and stores the value (waking the flush
waiters) exactly when it is strictly greater.
-/
theorem saved_lsa_monotonicity :
    init_handler.m_saved_lsa = NULL_LSA
    ∧ (∀ (l : Int) (h : connection_handler),
        h.m_saved_lsa ≤ (receive_saved_lsa l h).1.m_saved_lsa)
    ∧ (∀ (l : Int) (h : connection_handler),
        (receive_saved_lsa l h).2.2 = true ↔ l ≥ h.m_saved_lsa)
    ∧ (∀ (l : Int) (h : connection_handler),
        (receive_saved_lsa l h).2.1 = true ↔ l > h.m_saved_lsa)
    ∧ (∀ (l : Int) (h : connection_handler),
        (receive_saved_lsa l h).1 ≠ h →
          l > h.m_saved_lsa
          ∧ (receive_saved_lsa l h).1 = { h with m_saved_lsa := l })
    ∧ (∀ (ct : Int) (op : hop) (h : connection_handler),
        h.m_saved_lsa ≤ (hstep ct op h).1.m_saved_lsa) := by
  refine ⟨rfl, ?_, ?_, ?_, ?_, ?_⟩
  · intro l h
    by_cases hl : l > get_saved_lsa h
    · simp only [receive_saved_lsa, hl, if_pos]
      exact le_of_lt hl
    · simp [receive_saved_lsa, hl]
  · intro l h
    simp only [receive_saved_lsa, get_saved_lsa]
    split_ifs with hl <;> simp
  · intro l h
    simp only [receive_saved_lsa, get_saved_lsa]
    split_ifs with hl <;> simp [hl]
  · intro l h hne
    by_cases hl : l > get_saved_lsa h
    · exact ⟨hl, by simp [receive_saved_lsa, hl]⟩
    · exact absurd (by simp [receive_saved_lsa, hl]) hne
  · intro ct op h
    cases op with
    | connect env =>
      by_cases hst : h.m_state = conn_state.IDLE
      · simp only [hstep, connect, hst]
        split_ifs <;> simp
      · simp [hstep, connect, hst]
    | disconnect_async b =>
      by_cases hst : h.m_state = conn_state.IDLE
          ∨ h.m_state = conn_state.DISCONNECTING <;>
        simp [hstep, disconnect_async, hst]
    | finish_disconnect =>
      cases hp : h.m_disconn_pending with
      | none => simp [hstep, finish_disconnect, hp]
      | some b =>
        by_cases hst : h.m_state = conn_state.DISCONNECTING <;>
          simp [hstep, finish_disconnect, hp, hst, teardown]
    | wait_async_disconnection =>
      by_cases hv : h.m_disconn_future_valid
      · cases hp : h.m_disconn_pending with
        | none => simp [hstep, wait_async_disconnection, hv, hp]
        | some b =>
          by_cases hst : h.m_state = conn_state.DISCONNECTING <;>
            simp [hstep, wait_async_disconnection, hv, hp, hst, teardown]
      · simp [hstep, wait_async_disconnection, hv]
    | catchup_complete =>
      by_cases hst : h.m_state = conn_state.CONNECTING <;>
        simp [hstep, receive_catchup_complete, hst]
    | saved_lsa l =>
      by_cases hl : l > get_saved_lsa h
      · simp only [hstep, receive_saved_lsa, hl, if_pos]
        simpa [get_saved_lsa] using le_of_lt hl
      · simp [hstep, receive_saved_lsa, hl]

/-- Witness for C9: receiving `5` over a stored `3` updates the value. -/
theorem saved_lsa_monotonicity_witness :
    (5 : Int) > (mk_handler conn_state.CONNECTED 3).m_saved_lsa
    ∧ (receive_saved_lsa 5 (mk_handler conn_state.CONNECTED 3)).1
        = { mk_handler conn_state.CONNECTED 3 with m_saved_lsa := 5 } :=
  saved_lsa_monotonicity.2.2.2.2.1 5 (mk_handler conn_state.CONNECTED 3)
    (by decide)

/-- Lemma: `getLastD` distributes over append. -/
theorem getLastD_append {α : Type} :
    ∀ (l1 l2 : List α) (a : α),
      (l1 ++ l2).getLastD a = l2.getLastD (l1.getLastD a) := by
  intro l1
  induction l1 with
  | nil => simp
  | cons x l1 ih =>
    intro l2 a
    simp only [List.cons_append, List.getLastD_cons, ih]

/-- Chains compose when the second chain starts at the end state of the
first. -/
theorem chain_append_of {α : Type} {R : α → α → Prop} :
    ∀ (l1 : List α) (a : α) (l2 : List α),
      List.Chain R a l1 → List.Chain R (l1.getLastD a) l2 →
      List.Chain R a (l1 ++ l2) := by
  intro l1
  induction l1 with
  | nil =>
    intro a l2 _ h2
    simpa using h2
  | cons b l1 ih =>
    intro a l2 h1 h2
    cases h1 with
    | cons hab h1 =>
      simp only [List.cons_append]
      exact List.Chain.cons hab
        (ih b l2 h1 (by rwa [List.getLastD_cons] at h2))

/-- Every single operation writes `m_state` along permitted transitions only
and ends in the state it reports. -/
theorem hstep_chain (ct : Int) (op : hop) (h : connection_handler) :
    List.Chain ok_step h.m_state (hstep ct op h).2
    ∧ (hstep ct op h).2.getLastD h.m_state = (hstep ct op h).1.m_state := by
  cases op with
  | connect env =>
    by_cases hst : h.m_state = conn_state.IDLE <;>
      simp only [hstep, connect, hst] <;>
      split_ifs <;>
      constructor <;>
      simp_all [List.chain_cons, ok_step, permitted]
  | disconnect_async b =>
    cases hs : h.m_state <;>
      simp [hstep, disconnect_async, hs, List.chain_cons, ok_step, permitted]
  | finish_disconnect =>
    cases hp : h.m_disconn_pending with
    | none => simp [hstep, finish_disconnect, hp]
    | some b =>
      cases hs : h.m_state <;>
        simp [hstep, finish_disconnect, hp, hs, teardown, List.chain_cons,
          ok_step, permitted]
  | wait_async_disconnection =>
    by_cases hv : h.m_disconn_future_valid
    · cases hp : h.m_disconn_pending with
      | none => simp [hstep, wait_async_disconnection, hv, hp]
      | some b =>
        cases hs : h.m_state <;>
          simp [hstep, wait_async_disconnection, hv, hp, hs, teardown,
            List.chain_cons, ok_step, permitted]
    · simp [hstep, wait_async_disconnection, hv]
  | catchup_complete =>
    cases hs : h.m_state <;>
      simp [hstep, receive_catchup_complete, hs, List.chain_cons, ok_step,
        permitted]
  | saved_lsa l =>
    by_cases hl : l > get_saved_lsa h <;>
      simp [hstep, receive_saved_lsa, hl]

/-- Runs concatenate single-step write chains. -/
theorem hrun_chain (ct : Int) (ops : List hop) :
    ∀ h : connection_handler,
      List.Chain ok_step h.m_state (hrun ct ops h).2
      ∧ (hrun ct ops h).2.getLastD h.m_state = (hrun ct ops h).1.m_state := by
  induction ops with
  | nil =>
    intro h
    simp [hrun]
  | cons op ops ih =>
    intro h
    obtain ⟨c1, l1⟩ := hstep_chain ct op h
    obtain ⟨c2, l2⟩ := ih (hstep ct op h).1
    simp only [hrun]
    constructor
    · apply chain_append_of _ _ _ c1
      rw [l1]
      exact c2
    · rw [getLastD_append, l1, l2]

/--
C5: for every sequence of handler operations started on a fresh (`IDLE`)
handler, the observed `m_state` sequence changes only along the transitions
of the table in spec §3 (stutters aside), and a `CONNECTED → CONNECTING`
change never occurs anywhere in the observed sequence.
-/
theorem conn_state_machine_conformance :
    ∀ (ct : Int) (ops : List hop),
      List.Chain' ok_step (observed_states ct ops)
      ∧ ∀ i : Nat,
          ¬ ((observed_states ct ops).getD i conn_state.IDLE
                = conn_state.CONNECTED
              ∧ (observed_states ct ops).getD (i + 1) conn_state.IDLE
                = conn_state.CONNECTING) := by
  intro ct ops
  have hchain : List.Chain ok_step init_handler.m_state
      (hrun ct ops init_handler).2 := (hrun_chain ct ops init_handler).1
  have hchain2 : List.Chain' ok_step (observed_states ct ops) := hchain
  refine ⟨hchain2, ?_⟩
  intro i hbad
  obtain ⟨hbad1, hbad2⟩ := hbad
  by_cases hi : i + 1 < (observed_states ct ops).length
  · have hok := List.chain'_iff_get.mp hchain2 i (by omega)
    simp only [List.get_eq_getElem] at hok
    rw [List.getD_eq_getElem _ _ (by omega : i
        < (observed_states ct ops).length)] at hbad1
    rw [List.getD_eq_getElem _ _ hi] at hbad2
    rw [hbad1, hbad2] at hok
    exact absurd hok (by decide)
  · rw [List.getD_eq_default _ _
      (by omega : (observed_states ct ops).length ≤ i + 1)] at hbad2
    exact absurd hbad2 (by decide)

end CubridTS
